import Mathlib

/-!
A shallow embedding of the transaction-creation RPC dispatchers of
src/exodus/rpctx.cpp: exodus_send, exodus_senddexsell, exodus_senddexaccept,
exodus_sendmint and exodus_sendspend, together with the collaborator
interfaces they consume (the Require precondition checks, the wallet
transaction builder, the sigma mint wallet operations, the pending-effects
table and the global fee-rate policy). External collaborators are fields of
an environment record; each dispatcher is a pure function from the
environment and the parsed request parameters to a result record holding
the RPC outcome and the observable side effects of the invocation.
-/

namespace Exodus

/-- Action kind tags passed to the pending-effects table (the EXODUS_TYPE
constants of tx.h, which is not under src; only the tags used by the
embedded dispatchers are listed and their numeric values are irrelevant
to the claims). -/
inductive ExodusTxType
  | simpleSend
  | tradeOffer
  | simpleMint
  | simpleSpend
deriving DecidableEq, Repr

/-- Input selection mode passed to the wallet transaction builder; SIGMA is
used by exodus_sendspend, every other dispatcher uses the default mode. -/
inductive InputMode
  | normal
  | sigma
deriving DecidableEq, Repr

/-- Payload of an embedded transaction, one constructor per CreatePayload
function invoked by the embedded dispatchers, carrying the arguments of the
call (the byte layout itself is the external codec and is out of scope). -/
inductive Payload
  | simpleSend (propertyId : Nat) (amount : Int)
  | dexSell (propertyId : Nat) (amountForSale amountDesired : Int)
      (paymentWindow : Nat) (minAcceptFee : Int) (action : Nat)
  | dexAccept (propertyId : Nat) (amount : Int)
  | simpleMint (propertyId : Nat) (mints : List (Nat × Nat))
  | simpleSpend (property denomination group groupSize spendProof : Nat)
deriving DecidableEq, Repr

/-- Identifier of a locally created sigma mint commitment: property,
denomination and one-time public key. -/
structure SigmaMintId where
  property : Nat
  denomination : Nat
  pubKey : Nat
deriving DecidableEq, Repr

/-- One entry of the pending-effects table, as inserted by PendingAdd. -/
structure PendingEffect where
  txid : Nat
  address : String
  kind : ExodusTxType
  propertyId : Nat
  amount : Int
  subtractFromBalance : Bool
deriving DecidableEq, Repr

/-- Modelled from the spec: PendingAdd lives in pending.h/pending.cpp which
are not under src; the spec gives the contract
insert(txid, address, actionKind, propertyId, amount, subtractFromBalance)
with subtractFromBalance defaulting to true, so call sites of the embedding
that mirror a C++ call omitting the last argument pass true explicitly. -/
def PendingAdd (txid : Nat) (address : String) (kind : ExodusTxType)
    (propertyId : Nat) (amount : Int) (subtractFromBalance : Bool) :
    PendingEffect :=
  { txid := txid, address := address, kind := kind, propertyId := propertyId,
    amount := amount, subtractFromBalance := subtractFromBalance }

/-- Error surfaced by a dispatcher invocation: a named precondition check
failure, an invalid-parameter or type error raised inline, a wallet error
from the sigma spend creation, the builder result code rethrown as
JSONRPCError, or a C++ exception escaping the dispatcher. -/
inductive RpcError
  | check (name : String)
  | invalidParameter (msg : String)
  | typeError (msg : String)
  | walletInsufficientFunds (msg : String)
  | walletError (msg : String)
  | build (code : Int)
  | exception (msg : String)
deriving DecidableEq, Repr

/-- Successful return value of a dispatcher: the transaction id in commit
mode, or the raw transaction hex in dry-run mode. -/
inductive RpcOutput
  | txidHex (txid : Nat)
  | rawHex (hex : String)
deriving DecidableEq, Repr

/-- Outcome of one call to WalletTxBuilder: a normal return carrying the
result code, the transaction id and the raw hex, or a C++ exception
escaping the call (the builder funds and signs through the wallet, which
can throw). -/
inductive BuildResult
  | ret (code : Int) (txid : Nat) (rawHex : String)
  | exn (msg : String)
deriving DecidableEq, Repr

/-- Arguments of one WalletTxBuilder call, in the order of the C++
signature. -/
structure BuildCall where
  fromAddress : String
  toAddress : String
  redeemAddress : String
  referenceAmount : Int
  payload : Payload
  autoCommit : Bool
  inputMode : InputMode
deriving DecidableEq, Repr

/-- Modelled from the spec: CFeeRate is the base-chain fee-rate policy type
(not under src); the embedding records the two constructor arguments used at
the single construction site CFeeRate(nMinimumAcceptFee, 225), which is
enough to distinguish the overriding rate from the prior one. -/
structure CFeeRate where
  feePaid : Int
  bytes : Nat
deriving DecidableEq, Repr

/-- Modelled from the spec: CMPOffer is the distributed-exchange sell offer
record (dex.h, not under src); only getMinFee is consumed by the embedded
dispatchers. -/
structure CMPOffer where
  minFee : Int
deriving DecidableEq, Repr

/-- Modelled from the spec: the Require precondition checks of
rpcrequirements.cpp (not under src), each a pure predicate over the ledger
snapshot and request fields that throws a specific error when false. The
embedding keeps them as boolean fields consulted by the dispatchers in
source order. -/
structure Checks where
  existingProperty : Nat → Bool
  balance : String → Nat → Int → Bool
  saneReferenceAmount : Int → Bool
  primaryToken : Nat → Bool
  matchingDExOffer : String → Nat → Bool
  noOtherDExOffer : String → Nat → Bool
  saneDExFee : String → Nat → Bool
  saneDExPaymentWindow : String → Nat → Bool
  sigma : Nat → Bool
  existingDenomination : Nat → Nat → Bool

/-- Result of wallet.CreateSigmaSpend: the chosen mint with the group data
of its proof, or one of the two caught wallet exception kinds. -/
inductive SpendCreateResult
  | ok (mint : SigmaMintId) (group : Nat) (groupSize : Nat) (spendProof : Nat)
  | insufficientFunds (msg : String)
  | walletError (msg : String)
deriving DecidableEq, Repr

/-- Environment of one dispatcher invocation: the autoCommit flag, the
current global fee-rate policy and the behaviour of every external
collaborator consumed by the embedded dispatchers. -/
structure Env where
  checks : Checks
  autoCommit : Bool
  payTxFee : CFeeRate
  getOffer : String → Nat → Option CMPOffer
  walletTxBuilder : BuildCall → BuildResult
  getDenominationRemainingConfirmation : Nat → Nat → Int → Except String Int
  sumDenominationsValue : Nat → List Nat → Except String Int
  createSigmaMints : Nat → List Nat → List SigmaMintId
  eraseSigmaMintFails : SigmaMintId → Bool
  createSigmaSpend : Nat → Nat → SpendCreateResult
  getDenominationValue : Nat → Nat → Int

/-- Observable result of one dispatcher invocation: the RPC outcome plus
the side effects performed on the process-wide collaborators. buildCode is
the result code of the builder when it returned normally; committed is true
exactly when the builder was asked to submit and returned zero;
payTxFeeFinal is the value of the global fee policy when the dispatcher
exits (set only by the dispatcher that touches the global); feeAtBuild is
the fee policy in effect during the builder call. -/
structure DispatchResult where
  outcome : Except RpcError RpcOutput
  builderCalled : Bool := false
  buildCode : Option Int := none
  committed : Bool := false
  pendingAdds : List PendingEffect := []
  createdMints : List SigmaMintId := []
  eraseAttempts : List SigmaMintId := []
  eraseFailuresLogged : List SigmaMintId := []
  markedUsed : List (SigmaMintId × Nat) := []
  feeAtBuild : Option CFeeRate := none
  payTxFeeFinal : Option CFeeRate := none

/-- First failing precondition check of exodus_send (rpctx.cpp lines
114-117): existing property, then balance, then sane reference amount. -/
def sendFirstCheckError (c : Checks) (fromAddress : String) (propertyId : Nat)
    (amount referenceAmount : Int) : Option RpcError :=
  if c.existingProperty propertyId then
    if c.balance fromAddress propertyId amount then
      if c.saneReferenceAmount referenceAmount then none
      else some (.check "Invalid reference amount")
    else some (.check "Sender has insufficient balance")
  else some (.check "Property identifier does not exist")

/-- Embedding of exodus_send (rpctx.cpp lines 82-138). -/
def exodus_send (env : Env) (fromAddress toAddress : String)
    (propertyId : Nat) (amount : Int) (redeemAddress : String)
    (referenceAmount : Int) : DispatchResult :=
  match sendFirstCheckError env.checks fromAddress propertyId amount referenceAmount with
  | some e => { outcome := .error e }
  | none =>
    match env.walletTxBuilder
        { fromAddress := fromAddress, toAddress := toAddress,
          redeemAddress := redeemAddress, referenceAmount := referenceAmount,
          payload := .simpleSend propertyId amount,
          autoCommit := env.autoCommit, inputMode := .normal } with
    | .exn msg => { outcome := .error (.exception msg), builderCalled := true }
    | .ret code txid rawHex =>
      if code ≠ 0 then
        { outcome := .error (.build code), builderCalled := true,
          buildCode := some code }
      else if env.autoCommit then
        { outcome := .ok (.txidHex txid), builderCalled := true,
          buildCode := some 0, committed := true,
          pendingAdds := [PendingAdd txid fromAddress .simpleSend propertyId amount true] }
      else
        { outcome := .ok (.rawHex rawHex), builderCalled := true,
          buildCode := some 0 }

/-- Modelled from the spec: the DEx sell action codes accepted by
ParseDExAction (rpcvalues.cpp, not under src) are exactly 1 for new offers,
2 for updates and 3 for cancels, matching the CMPTransaction constants
NEW, UPDATE and CANCEL compared against in exodus_senddexsell. -/
def DEX_NEW : Nat := 1

/-- Modelled from the spec: the UPDATE action code, see DEX_NEW. -/
def DEX_UPDATE : Nat := 2

/-- Modelled from the spec: the CANCEL action code, see DEX_NEW. -/
def DEX_CANCEL : Nat := 3

/-- First failing precondition check of exodus_senddexsell (rpctx.cpp lines
237-259): the check set depends on the action, as in the source switch. -/
def dexsellFirstCheckError (c : Checks) (fromAddress : String)
    (propertyIdForSale : Nat) (amountForSale : Int) (action : Nat) :
    Option RpcError :=
  if action = DEX_NEW then
    if c.primaryToken propertyIdForSale then
      if c.balance fromAddress propertyIdForSale amountForSale then
        if c.noOtherDExOffer fromAddress propertyIdForSale then none
        else some (.check "Another active sell offer from the given address already exists")
      else some (.check "Sender has insufficient balance")
    else some (.check "Property must be EXODUS or TEXODUS")
  else if action = DEX_UPDATE then
    if c.primaryToken propertyIdForSale then
      if c.balance fromAddress propertyIdForSale amountForSale then
        if c.matchingDExOffer fromAddress propertyIdForSale then none
        else some (.check "No matching sell offer on the distributed exchange")
      else some (.check "Sender has insufficient balance")
    else some (.check "Property must be EXODUS or TEXODUS")
  else if action = DEX_CANCEL then
    if c.primaryToken propertyIdForSale then
      if c.matchingDExOffer fromAddress propertyIdForSale then none
      else some (.check "No matching sell offer on the distributed exchange")
    else some (.check "Property must be EXODUS or TEXODUS")
  else none

/-- Embedding of exodus_senddexsell (rpctx.cpp lines 194-281). The amount,
desired amount, payment window and fee parameters are parsed only for
actions 1 and 2; for cancels the variables keep their zero initial values
exactly as in the source. -/
def exodus_senddexsell (env : Env) (fromAddress : String)
    (propertyIdForSale : Nat) (amountForSaleParam amountDesiredParam : Int)
    (paymentWindowParam : Nat) (minAcceptFeeParam : Int)
    (actionParam : Nat) : DispatchResult :=
  if actionParam < 1 ∨ 3 < actionParam then
    { outcome := .error (.invalidParameter "Invalid action") }
  else
    let amountForSale := if actionParam ≤ DEX_UPDATE then amountForSaleParam else 0
    let amountDesired := if actionParam ≤ DEX_UPDATE then amountDesiredParam else 0
    let paymentWindow := if actionParam ≤ DEX_UPDATE then paymentWindowParam else 0
    let minAcceptFee := if actionParam ≤ DEX_UPDATE then minAcceptFeeParam else 0
    match dexsellFirstCheckError env.checks fromAddress propertyIdForSale
        amountForSale actionParam with
    | some e => { outcome := .error e }
    | none =>
      match env.walletTxBuilder
          { fromAddress := fromAddress, toAddress := "", redeemAddress := "",
            referenceAmount := 0,
            payload := .dexSell propertyIdForSale amountForSale amountDesired
              paymentWindow minAcceptFee actionParam,
            autoCommit := env.autoCommit, inputMode := .normal } with
      | .exn msg => { outcome := .error (.exception msg), builderCalled := true }
      | .ret code txid rawHex =>
        if code ≠ 0 then
          { outcome := .error (.build code), builderCalled := true,
            buildCode := some code }
        else if env.autoCommit then
          { outcome := .ok (.txidHex txid), builderCalled := true,
            buildCode := some 0, committed := true,
            pendingAdds := [PendingAdd txid fromAddress .tradeOffer
              propertyIdForSale amountForSale (decide (actionParam ≤ DEX_UPDATE))] }
        else
          { outcome := .ok (.rawHex rawHex), builderCalled := true,
            buildCode := some 0 }

/-- First failing precondition check of exodus_senddexaccept (rpctx.cpp
lines 313-320): primary token, matching offer, and unless override the two
sanity checks on the offer. -/
def dexacceptFirstCheckError (c : Checks) (toAddress : String)
    (propertyId : Nat) (override : Bool) : Option RpcError :=
  if c.primaryToken propertyId then
    if c.matchingDExOffer toAddress propertyId then
      if override then none
      else
        if c.saneDExFee toAddress propertyId then
          if c.saneDExPaymentWindow toAddress propertyId then none
          else some (.check "Payment window is above limit")
        else some (.check "Minimum accept fee is above limit")
    else some (.check "No matching sell offer on the distributed exchange")
  else some (.check "Property must be EXODUS or TEXODUS")

/-- Embedding of exodus_senddexaccept (rpctx.cpp lines 283-360). The global
fee policy is saved, overwritten with CFeeRate of the offer minimum accept
fee over 225 bytes, and written back by a plain assignment after the
builder returns; exactly as in the source there is no scope guard, so when
the builder call raises an exception the assignment that restores the
saved value is never executed and the override is left in place. -/
def exodus_senddexaccept (env : Env) (fromAddress toAddress : String)
    (propertyId : Nat) (amount : Int) (override : Bool) : DispatchResult :=
  match dexacceptFirstCheckError env.checks toAddress propertyId override with
  | some e => { outcome := .error e, payTxFeeFinal := some env.payTxFee }
  | none =>
    match env.getOffer toAddress propertyId with
    | none =>
      { outcome := .error (.typeError "Unable to load sell offer from the distributed exchange"),
        payTxFeeFinal := some env.payTxFee }
    | some sellOffer =>
      let payTxFeeOriginal := env.payTxFee
      let overrideFee : CFeeRate := { feePaid := sellOffer.minFee, bytes := 225 }
      match env.walletTxBuilder
          { fromAddress := fromAddress, toAddress := toAddress,
            redeemAddress := "", referenceAmount := 0,
            payload := .dexAccept propertyId amount,
            autoCommit := env.autoCommit, inputMode := .normal } with
      | .exn msg =>
        { outcome := .error (.exception msg), builderCalled := true,
          feeAtBuild := some overrideFee, payTxFeeFinal := some overrideFee }
      | .ret code txid rawHex =>
        if code ≠ 0 then
          { outcome := .error (.build code), builderCalled := true,
            buildCode := some code, feeAtBuild := some overrideFee,
            payTxFeeFinal := some payTxFeeOriginal }
        else if env.autoCommit then
          { outcome := .ok (.txidHex txid), builderCalled := true,
            buildCode := some 0, committed := true,
            feeAtBuild := some overrideFee,
            payTxFeeFinal := some payTxFeeOriginal }
        else
          { outcome := .ok (.rawHex rawHex), builderCalled := true,
            buildCode := some 0, feeAtBuild := some overrideFee,
            payTxFeeFinal := some payTxFeeOriginal }

/-- Embedding of the denominations loop of exodus_sendmint (rpctx.cpp lines
1584-1610): per key, range checks on the denomination id and the count,
accumulation of count copies of the denomination, and the requirement that
the denomination has no remaining confirmations below the minimum. -/
def collectDenoms (remaining : Nat → Nat → Int → Except String Int)
    (propertyId : Nat) (minConfirms : Int) :
    List (Nat × Int) → Except RpcError (List Nat)
  | [] => .ok []
  | (denomId, count) :: rest =>
    if denomId > 255 then .error (.invalidParameter "invalid denomination")
    else if count < 0 ∨ count > 255 then
      .error (.invalidParameter "invalid amount of mints")
    else
      match remaining propertyId denomId minConfirms with
      | .error msg => .error (.invalidParameter msg)
      | .ok rem =>
        if rem ≠ 0 then
          .error (.invalidParameter "confirmations of the denomination is less than required")
        else
          match collectDenoms remaining propertyId minConfirms rest with
          | .error e => .error e
          | .ok tail => .ok (List.replicate count.toNat denomId ++ tail)

/-- Embedding of exodus_sendmint (rpctx.cpp lines 1546-1658). The list of
pairs stands for the parsed JSON denominations object in key order; the
optional last parameter is denomminconf with documented default 6. When the
builder returns a nonzero code every created mint is erased in reverse
creation order, an erase failure is only logged, and the build error is the
one surfaced. -/
def exodus_sendmint (env : Env) (fromAddress : String) (propertyId : Nat)
    (denominations : List (Nat × Int)) (minConfirmsParam : Option Int) :
    DispatchResult :=
  let minConfirms : Int := minConfirmsParam.getD 6
  if env.checks.existingProperty propertyId then
    if env.checks.sigma propertyId then
      match collectDenoms env.getDenominationRemainingConfirmation propertyId
          minConfirms denominations with
      | .error e => { outcome := .error e }
      | .ok denoms =>
        match env.sumDenominationsValue propertyId denoms with
        | .error msg => { outcome := .error (.invalidParameter msg) }
        | .ok amount =>
          if env.checks.balance fromAddress propertyId amount then
            let ids := env.createSigmaMints propertyId denoms
            let mints := ids.map (fun m => (m.denomination, m.pubKey))
            match env.walletTxBuilder
                { fromAddress := fromAddress, toAddress := "",
                  redeemAddress := "", referenceAmount := 0,
                  payload := .simpleMint propertyId mints,
                  autoCommit := env.autoCommit, inputMode := .normal } with
            | .exn msg =>
              { outcome := .error (.exception msg), builderCalled := true,
                createdMints := ids }
            | .ret code txid rawHex =>
              if code ≠ 0 then
                { outcome := .error (.build code), builderCalled := true,
                  buildCode := some code, createdMints := ids,
                  eraseAttempts := ids.reverse,
                  eraseFailuresLogged := ids.reverse.filter env.eraseSigmaMintFails }
              else if env.autoCommit then
                { outcome := .ok (.txidHex txid), builderCalled := true,
                  buildCode := some 0, committed := true, createdMints := ids,
                  pendingAdds := [PendingAdd txid fromAddress .simpleMint propertyId amount true] }
              else
                { outcome := .ok (.rawHex rawHex), builderCalled := true,
                  buildCode := some 0, createdMints := ids }
          else { outcome := .error (.check "Sender has insufficient balance") }
    else { outcome := .error (.check "Sigma is not enabled for the property") }
  else { outcome := .error (.check "Property identifier does not exist") }

/-- Embedding of exodus_sendspend (rpctx.cpp lines 1660-1747). The consumed
mint is marked used, bound to the returned transaction id, whenever the
builder returns zero, before the autoCommit branch is examined, exactly as
in the source where SetSigmaMintUsedTransaction precedes the autoCommit
test. -/
def exodus_sendspend (env : Env) (toAddress : String) (propertyId : Nat)
    (denomination : Nat) (referenceAmount : Int) : DispatchResult :=
  if env.checks.existingProperty propertyId then
    if env.checks.existingDenomination propertyId denomination then
      if env.checks.saneReferenceAmount referenceAmount then
        match env.createSigmaSpend propertyId denomination with
        | .insufficientFunds msg =>
          { outcome := .error (.walletInsufficientFunds msg) }
        | .walletError msg => { outcome := .error (.walletError msg) }
        | .ok mint group groupSize spendProof =>
          match env.walletTxBuilder
              { fromAddress := "", toAddress := toAddress, redeemAddress := "",
                referenceAmount := referenceAmount,
                payload := .simpleSpend mint.property mint.denomination group
                  groupSize spendProof,
                autoCommit := env.autoCommit, inputMode := .sigma } with
          | .exn msg => { outcome := .error (.exception msg), builderCalled := true }
          | .ret code txid rawHex =>
            if code ≠ 0 then
              { outcome := .error (.build code), builderCalled := true,
                buildCode := some code }
            else if env.autoCommit then
              { outcome := .ok (.txidHex txid), builderCalled := true,
                buildCode := some 0, committed := true,
                markedUsed := [(mint, txid)],
                pendingAdds := [PendingAdd txid "Spend" .simpleSpend propertyId
                  (env.getDenominationValue mint.property mint.denomination) false] }
            else
              { outcome := .ok (.rawHex rawHex), builderCalled := true,
                buildCode := some 0, markedUsed := [(mint, txid)] }
      else { outcome := .error (.check "Invalid reference amount") }
    else { outcome := .error (.check "Denomination does not exist for the property") }
  else { outcome := .error (.check "Property identifier does not exist") }

/-- Outcomes raised by a failed precondition or parameter check, before any
payload encoding, wallet mutation or builder call. -/
def isPreconditionOutcome : Except RpcError RpcOutput → Bool
  | .error (.check _) => true
  | .error (.invalidParameter _) => true
  | _ => false

/-- True when a successful outcome can only be the raw transaction hex,
never a transaction id. -/
def okImpliesRawHex : Except RpcError RpcOutput → Bool
  | .ok (.txidHex _) => false
  | _ => true

end Exodus

namespace Exodus

/-- Concrete environment in which every check passes and every collaborator
succeeds; the builder commits and returns transaction id 42 with raw hex
00ff. Witness environments below adjust individual fields. -/
def envAllOk : Env :=
  { checks :=
      { existingProperty := fun _ => true
        balance := fun _ _ _ => true
        saneReferenceAmount := fun _ => true
        primaryToken := fun _ => true
        matchingDExOffer := fun _ _ => true
        noOtherDExOffer := fun _ _ => true
        saneDExFee := fun _ _ => true
        saneDExPaymentWindow := fun _ _ => true
        sigma := fun _ => true
        existingDenomination := fun _ _ => true }
    autoCommit := true
    payTxFee := { feePaid := 1000, bytes := 1000 }
    getOffer := fun _ _ => some { minFee := 5000 }
    walletTxBuilder := fun _ => .ret 0 42 "00ff"
    getDenominationRemainingConfirmation := fun _ _ _ => .ok 0
    sumDenominationsValue := fun _ _ => .ok 10
    createSigmaMints := fun p ds =>
      ds.map (fun d => { property := p, denomination := d, pubKey := d })
    eraseSigmaMintFails := fun _ => false
    createSigmaSpend := fun p d =>
      .ok { property := p, denomination := d, pubKey := 7 } 1 10 99
    getDenominationValue := fun _ _ => 100 }

/-- Environment of the C1 counterexample and witness: the builder raises an
exception instead of returning. -/
def envC1 : Env := { envAllOk with walletTxBuilder := fun _ => .exn "bad alloc during build" }

/-- Environment of the C1 amended-theorem witness: the all-good committing
environment. -/
def envC1w : Env := envAllOk

/-- Environment of the C2 counterexample and witness: a dry run, the builder
returns code zero without committing. -/
def envC2 : Env := { envAllOk with autoCommit := false }

/-- Environment of the C3 witness: the builder fails with result code 1,
and erasing a mint of denomination zero fails (is logged). -/
def envC3 : Env :=
  { envAllOk with
    walletTxBuilder := fun _ => .ret 1 0 ""
    eraseSigmaMintFails := fun m => decide (m.denomination = 0) }

/-- Environment of the C5 witness: property 9 does not exist, and the
sender already has an active sell offer. -/
def envC5 : Env :=
  { envAllOk with
    checks :=
      { envAllOk.checks with
        existingProperty := fun p => decide (p = 1)
        noOtherDExOffer := fun _ _ => false } }

/-- Environment of the C6 witness: a dry run in the all-good environment. -/
def envC6 : Env := { envAllOk with autoCommit := false }

/-- Environment of the C7 witness: the all-good committing environment. -/
def envC7 : Env := envAllOk

/-- Environment of the C8 witness: denomination 1 still has 3 remaining
confirmations below the requested minimum. -/
def envC8 : Env :=
  { envAllOk with
    getDenominationRemainingConfirmation := fun _ d _ =>
      if d = 1 then .ok 3 else .ok 0 }

/-- Environment of the C9 witness: the all-good committing environment. -/
def envC9 : Env := envAllOk

/-- Environment of the C10 witness: the all-good committing environment. -/
def envC10 : Env := envAllOk

/-- Claim C7: for every simple-send invocation that commits successfully,
exactly one pending-effects entry is inserted, keyed by the returned
transaction id, with the originating address, property id, amount and a
subtract-from-balance flag of true matching the validated request. -/
theorem simple_send_commit_pending_effect
    (env : Env) (fromAddress toAddress : String) (propertyId : Nat)
    (amount : Int) (redeemAddress : String) (referenceAmount : Int) (t : Nat)
    (hout : (exodus_send env fromAddress toAddress propertyId amount redeemAddress referenceAmount).outcome
        = .ok (.txidHex t)) :
    (exodus_send env fromAddress toAddress propertyId amount redeemAddress referenceAmount).pendingAdds
      = [{ txid := t, address := fromAddress, kind := .simpleSend,
           propertyId := propertyId, amount := amount, subtractFromBalance := true }] := by
  revert hout
  unfold exodus_send
  repeat' split
  all_goals intro h
  all_goals simp_all [PendingAdd]

/-- Claim C7 witness: the theorem applied in a concrete committing
environment. -/
theorem simple_send_commit_pending_effect_witness :
    (exodus_send envC7 "alice" "bob" 3 100 "" 0).pendingAdds
      = [{ txid := 42, address := "alice", kind := .simpleSend,
           propertyId := 3, amount := 100, subtractFromBalance := true }] :=
  simple_send_commit_pending_effect envC7 "alice" "bob" 3 100 "" 0 42 rfl

/-- Claim C4: in exodus_sendspend the consumed mint is marked used if and
only if the build step returned result code zero; under a build failure, a
check failure or a wallet failure it stays unmarked. -/
theorem spend_marked_used_iff_build_succeeded
    (env : Env) (toAddress : String) (propertyId denomination : Nat)
    (referenceAmount : Int) :
    (exodus_sendspend env toAddress propertyId denomination referenceAmount).markedUsed ≠ []
      ↔ (exodus_sendspend env toAddress propertyId denomination referenceAmount).buildCode = some 0 := by
  unfold exodus_sendspend
  repeat' split
  all_goals simp_all

/-- Claim C2 counterexample: in a dry run (autoCommit false) the builder
returns zero without committing or broadcasting anything, yet the consumed
mint is marked used and bound to the never-committed transaction id; this
refutes the claim that a successful non-committing build does not mark the
commitment used. -/
theorem spend_dry_run_marks_mint_used :
    (exodus_sendspend envC2 "to" 1 2 0).committed = false
    ∧ (exodus_sendspend envC2 "to" 1 2 0).markedUsed
        = [({ property := 1, denomination := 2, pubKey := 7 }, 42)]
    ∧ (exodus_sendspend envC2 "to" 1 2 0).outcome = .ok (.rawHex "00ff") :=
  ⟨rfl, rfl, rfl⟩

/-- Claim C2 amended: the consumed mint is marked used, bound to the
returned transaction id, exactly when the build step returns result code
zero; with autoCommit true this is after the commit, but a successful
non-committing dry-run build also marks the commitment used. -/
theorem spend_mark_used_on_build_success_amended
    (env : Env) (toAddress : String) (propertyId denomination : Nat)
    (referenceAmount : Int) (m : SigmaMintId) (g gs pf t : Nat) (hex : String)
    (h1 : env.checks.existingProperty propertyId = true)
    (h2 : env.checks.existingDenomination propertyId denomination = true)
    (h3 : env.checks.saneReferenceAmount referenceAmount = true)
    (hcs : env.createSigmaSpend propertyId denomination = .ok m g gs pf)
    (hb : env.walletTxBuilder
        { fromAddress := "", toAddress := toAddress, redeemAddress := "",
          referenceAmount := referenceAmount,
          payload := .simpleSpend m.property m.denomination g gs pf,
          autoCommit := env.autoCommit, inputMode := .sigma } = .ret 0 t hex) :
    (exodus_sendspend env toAddress propertyId denomination referenceAmount).markedUsed
        = [(m, t)]
    ∧ (env.autoCommit = false →
        (exodus_sendspend env toAddress propertyId denomination referenceAmount).committed = false) := by
  simp only [exodus_sendspend, h1, h2, h3, hcs, hb]
  by_cases ha : env.autoCommit
  all_goals simp [ha]

/-- Claim C2 amended witness: the theorem applied in the concrete dry-run
environment of the counterexample. -/
theorem spend_mark_used_on_build_success_amended_witness :
    (exodus_sendspend envC2 "to" 1 2 0).markedUsed
        = [({ property := 1, denomination := 2, pubKey := 7 }, 42)]
    ∧ (envC2.autoCommit = false → (exodus_sendspend envC2 "to" 1 2 0).committed = false) :=
  spend_mark_used_on_build_success_amended envC2 "to" 1 2 0
    { property := 1, denomination := 2, pubKey := 7 } 1 10 99 42 "00ff"
    rfl rfl rfl rfl rfl

/-- Claim C10: a committed spend inserts exactly one pending-effects entry
recording the literal string Spend as originating address, the face value
of the consumed denomination as amount, and a subtract-from-balance flag
of false. -/
theorem spend_commit_pending_effect
    (env : Env) (toAddress : String) (propertyId denomination : Nat)
    (referenceAmount : Int) (m : SigmaMintId) (g gs pf t : Nat)
    (hcs : env.createSigmaSpend propertyId denomination = .ok m g gs pf)
    (hout : (exodus_sendspend env toAddress propertyId denomination referenceAmount).outcome
        = .ok (.txidHex t)) :
    (exodus_sendspend env toAddress propertyId denomination referenceAmount).pendingAdds
      = [{ txid := t, address := "Spend", kind := .simpleSpend,
           propertyId := propertyId,
           amount := env.getDenominationValue m.property m.denomination,
           subtractFromBalance := false }] := by
  revert hout
  unfold exodus_sendspend
  repeat' split
  all_goals intro h
  all_goals simp_all [PendingAdd]

/-- Claim C10 witness: the theorem applied in a concrete committing
environment. -/
theorem spend_commit_pending_effect_witness :
    (exodus_sendspend envC10 "to" 1 2 0).pendingAdds
      = [{ txid := 42, address := "Spend", kind := .simpleSpend,
           propertyId := 1, amount := envC10.getDenominationValue 1 2,
           subtractFromBalance := false }] :=
  spend_commit_pending_effect envC10 "to" 1 2 0
    { property := 1, denomination := 2, pubKey := 7 } 1 10 99 42 rfl rfl

end Exodus

namespace Exodus

/-- Claim C9: a committed exchange-sell invocation, the cancel action
included, inserts exactly one pending-effects entry; its
subtract-from-balance flag is true exactly for the new and update actions,
and for a cancel the recorded amount for sale is the zero initial value
because the amount parameters are never parsed for cancels. -/
theorem dexsell_commit_pending_effect
    (env : Env) (fromAddress : String) (propertyIdForSale : Nat)
    (amountForSaleParam amountDesiredParam : Int) (paymentWindowParam : Nat)
    (minAcceptFeeParam : Int) (actionParam : Nat) (t : Nat)
    (hout : (exodus_senddexsell env fromAddress propertyIdForSale
        amountForSaleParam amountDesiredParam paymentWindowParam
        minAcceptFeeParam actionParam).outcome = .ok (.txidHex t)) :
    (exodus_senddexsell env fromAddress propertyIdForSale amountForSaleParam
        amountDesiredParam paymentWindowParam minAcceptFeeParam actionParam).pendingAdds
      = [{ txid := t, address := fromAddress, kind := .tradeOffer,
           propertyId := propertyIdForSale,
           amount := if actionParam ≤ DEX_UPDATE then amountForSaleParam else 0,
           subtractFromBalance := decide (actionParam ≤ DEX_UPDATE) }] := by
  revert hout
  simp only [exodus_senddexsell]
  repeat' split
  all_goals intro h
  all_goals simp_all [PendingAdd]

/-- Claim C9 witness: the theorem applied to a concrete committed cancel,
showing the zero amount and the false subtract flag. -/
theorem dexsell_commit_pending_effect_witness :
    (exodus_senddexsell envC9 "alice" 1 100 50 25 5 3).pendingAdds
      = [{ txid := 42, address := "alice", kind := .tradeOffer, propertyId := 1,
           amount := if 3 ≤ DEX_UPDATE then (100 : Int) else 0,
           subtractFromBalance := decide (3 ≤ DEX_UPDATE) }] :=
  dexsell_commit_pending_effect envC9 "alice" 1 100 50 25 5 3 42 rfl

/-- Claim C3: when the mint build step fails with a nonzero result code
after the commitments were created, an erase is attempted for each created
identifier in reverse creation order, erase failures are only logged (the
conclusion holds for every erase-failure behaviour the environment
chooses), and the original build error is the error surfaced. -/
theorem mint_rollback_on_build_failure
    (env : Env) (fromAddress : String) (propertyId : Nat)
    (denominations : List (Nat × Int)) (minConfirmsParam : Option Int) (c : Int)
    (hc : (exodus_sendmint env fromAddress propertyId denominations minConfirmsParam).buildCode = some c)
    (hne : c ≠ 0) :
    (exodus_sendmint env fromAddress propertyId denominations minConfirmsParam).eraseAttempts
      = (exodus_sendmint env fromAddress propertyId denominations minConfirmsParam).createdMints.reverse
    ∧ (exodus_sendmint env fromAddress propertyId denominations minConfirmsParam).outcome
      = .error (.build c)
    ∧ (exodus_sendmint env fromAddress propertyId denominations minConfirmsParam).eraseFailuresLogged
      = ((exodus_sendmint env fromAddress propertyId denominations minConfirmsParam).eraseAttempts).filter
          env.eraseSigmaMintFails := by
  revert hc
  simp only [exodus_sendmint]
  repeat' split
  all_goals intro hc
  all_goals simp_all

/-- Claim C3 witness: three commitments are created for the denominations
object mapping 0 to 1 and 1 to 2, the build fails with code 1, and the
theorem is applied to that concrete run. -/
theorem mint_rollback_on_build_failure_witness :
    (exodus_sendmint envC3 "addr" 1 [(0, 1), (1, 2)] none).eraseAttempts
      = (exodus_sendmint envC3 "addr" 1 [(0, 1), (1, 2)] none).createdMints.reverse
    ∧ (exodus_sendmint envC3 "addr" 1 [(0, 1), (1, 2)] none).outcome
      = .error (.build 1)
    ∧ (exodus_sendmint envC3 "addr" 1 [(0, 1), (1, 2)] none).eraseFailuresLogged
      = ((exodus_sendmint envC3 "addr" 1 [(0, 1), (1, 2)] none).eraseAttempts).filter
          envC3.eraseSigmaMintFails :=
  mint_rollback_on_build_failure envC3 "addr" 1 [(0, 1), (1, 2)] none 1 rfl (by decide)

/-- Claim C5: for exodus_send and exodus_senddexsell (the claim sources), a
failing precondition check stops the dispatcher with exactly the error of
the first failing check of that action; the transaction builder is never
invoked and no pending effect is inserted on that path. -/
theorem precondition_failure_never_reaches_builder
    (env : Env) (fromAddress toAddress redeemAddress : String)
    (propertyId propertyIdForSale : Nat) (amount referenceAmount : Int)
    (amountForSaleParam amountDesiredParam : Int) (paymentWindowParam : Nat)
    (minAcceptFeeParam : Int) (actionParam : Nat) (e1 e2 : RpcError)
    (h1 : sendFirstCheckError env.checks fromAddress propertyId amount referenceAmount = some e1)
    (h2 : dexsellFirstCheckError env.checks fromAddress propertyIdForSale
        (if actionParam ≤ DEX_UPDATE then amountForSaleParam else 0) actionParam = some e2)
    (hrange : 1 ≤ actionParam ∧ actionParam ≤ 3) :
    ((exodus_send env fromAddress toAddress propertyId amount redeemAddress referenceAmount).outcome
        = .error e1
      ∧ (exodus_send env fromAddress toAddress propertyId amount redeemAddress referenceAmount).builderCalled
        = false
      ∧ (exodus_send env fromAddress toAddress propertyId amount redeemAddress referenceAmount).pendingAdds
        = [])
    ∧ ((exodus_senddexsell env fromAddress propertyIdForSale amountForSaleParam
          amountDesiredParam paymentWindowParam minAcceptFeeParam actionParam).outcome
        = .error e2
      ∧ (exodus_senddexsell env fromAddress propertyIdForSale amountForSaleParam
          amountDesiredParam paymentWindowParam minAcceptFeeParam actionParam).builderCalled
        = false
      ∧ (exodus_senddexsell env fromAddress propertyIdForSale amountForSaleParam
          amountDesiredParam paymentWindowParam minAcceptFeeParam actionParam).pendingAdds
        = []) := by
  obtain ⟨hlo, hhi⟩ := hrange
  have hnr : ¬(actionParam < 1 ∨ 3 < actionParam) := by omega
  constructor
  · simp [exodus_send, h1]
  · unfold exodus_senddexsell
    rw [if_neg hnr]
    simp [h2]

/-- Claim C5 witness: property 9 does not exist, so a simple send of it
fails on the first check; and a new sell offer from an address that already
has one fails on the no-other-offer check; neither invocation reaches the
builder. -/
theorem precondition_failure_never_reaches_builder_witness :
    ((exodus_send envC5 "alice" "bob" 9 5 "" 0).outcome
        = .error (.check "Property identifier does not exist")
      ∧ (exodus_send envC5 "alice" "bob" 9 5 "" 0).builderCalled = false
      ∧ (exodus_send envC5 "alice" "bob" 9 5 "" 0).pendingAdds = [])
    ∧ ((exodus_senddexsell envC5 "alice" 1 5 5 10 1 1).outcome
        = .error (.check "Another active sell offer from the given address already exists")
      ∧ (exodus_senddexsell envC5 "alice" 1 5 5 10 1 1).builderCalled = false
      ∧ (exodus_senddexsell envC5 "alice" 1 5 5 10 1 1).pendingAdds = []) :=
  precondition_failure_never_reaches_builder envC5 "alice" "bob" "" 9 1 5 0 5 5 10 1 1
    (.check "Property identifier does not exist")
    (.check "Another active sell offer from the given address already exists")
    rfl rfl (by decide)

/-- Claim C6: under autoCommit false, every embedded dispatcher inserts no
pending effect, and a successful outcome can only be the raw transaction
hex, never a transaction id. -/
theorem dry_run_inserts_no_pending_effect
    (env : Env) (hac : env.autoCommit = false)
    (a b redeem : String) (pid pid2 denom : Nat)
    (amt refAmt afs ad fee : Int) (pw actionParam : Nat)
    (ds : List (Nat × Int)) (mc : Option Int) (ov : Bool) :
    ((exodus_send env a b pid amt redeem refAmt).pendingAdds = []
      ∧ okImpliesRawHex (exodus_send env a b pid amt redeem refAmt).outcome = true)
    ∧ ((exodus_senddexsell env a pid2 afs ad pw fee actionParam).pendingAdds = []
      ∧ okImpliesRawHex (exodus_senddexsell env a pid2 afs ad pw fee actionParam).outcome = true)
    ∧ ((exodus_senddexaccept env a b pid amt ov).pendingAdds = []
      ∧ okImpliesRawHex (exodus_senddexaccept env a b pid amt ov).outcome = true)
    ∧ ((exodus_sendmint env a pid ds mc).pendingAdds = []
      ∧ okImpliesRawHex (exodus_sendmint env a pid ds mc).outcome = true)
    ∧ ((exodus_sendspend env b pid denom refAmt).pendingAdds = []
      ∧ okImpliesRawHex (exodus_sendspend env b pid denom refAmt).outcome = true) := by
  refine ⟨?_, ?_, ?_, ?_, ?_⟩
  · simp only [exodus_send]
    repeat' split
    all_goals simp_all [okImpliesRawHex]
  · simp only [exodus_senddexsell]
    repeat' split
    all_goals simp_all [okImpliesRawHex]
  · simp only [exodus_senddexaccept]
    repeat' split
    all_goals simp_all [okImpliesRawHex]
  · simp only [exodus_sendmint]
    repeat' split
    all_goals simp_all [okImpliesRawHex]
  · simp only [exodus_sendspend]
    repeat' split
    all_goals simp_all [okImpliesRawHex]

/-- Claim C6 witness: the theorem applied in a concrete dry-run
environment. -/
theorem dry_run_inserts_no_pending_effect_witness :
    ((exodus_send envC6 "a" "b" 1 5 "" 0).pendingAdds = []
      ∧ okImpliesRawHex (exodus_send envC6 "a" "b" 1 5 "" 0).outcome = true)
    ∧ ((exodus_senddexsell envC6 "a" 1 5 5 10 1 1).pendingAdds = []
      ∧ okImpliesRawHex (exodus_senddexsell envC6 "a" 1 5 5 10 1 1).outcome = true)
    ∧ ((exodus_senddexaccept envC6 "a" "b" 1 5 false).pendingAdds = []
      ∧ okImpliesRawHex (exodus_senddexaccept envC6 "a" "b" 1 5 false).outcome = true)
    ∧ ((exodus_sendmint envC6 "a" 1 [(0, 1)] none).pendingAdds = []
      ∧ okImpliesRawHex (exodus_sendmint envC6 "a" 1 [(0, 1)] none).outcome = true)
    ∧ ((exodus_sendspend envC6 "b" 1 2 0).pendingAdds = []
      ∧ okImpliesRawHex (exodus_sendspend envC6 "b" 1 2 0).outcome = true) :=
  dry_run_inserts_no_pending_effect envC6 rfl "a" "b" "" 1 1 2 5 0 5 5 1 10 1 [(0, 1)] none false

/-- Claim C8: the optional minimum-confirmations parameter of
exodus_sendmint defaults to 6 when omitted, and whenever the dispatcher
stops with a precondition or parameter error (the insufficient-
confirmations error included) no mint commitment has been created and the
builder has not been invoked. -/
theorem mint_minconf_default_and_no_mutation_before_checks
    (env : Env) (fromAddress : String) (propertyId : Nat)
    (denominations : List (Nat × Int)) (minConfirmsParam : Option Int) :
    exodus_sendmint env fromAddress propertyId denominations none
      = exodus_sendmint env fromAddress propertyId denominations (some 6)
    ∧ (isPreconditionOutcome
          (exodus_sendmint env fromAddress propertyId denominations minConfirmsParam).outcome = true →
        (exodus_sendmint env fromAddress propertyId denominations minConfirmsParam).createdMints = []
        ∧ (exodus_sendmint env fromAddress propertyId denominations minConfirmsParam).builderCalled = false) := by
  constructor
  · rfl
  · intro hp
    revert hp
    simp only [exodus_sendmint]
    repeat' split
    all_goals intro hp
    all_goals simp_all [isPreconditionOutcome]

/-- Claim C8 witness: a mint request for the denominations object mapping 0
to 1 and 1 to 2 where denomination 1 still lacks confirmations stops with a
parameter error, with no commitment created and no builder call; and the
omitted minimum-confirmations parameter behaves as the value 6. -/
theorem mint_minconf_default_and_no_mutation_before_checks_witness :
    (exodus_sendmint envC8 "addr" 1 [(0, 1), (1, 2)] none
        = exodus_sendmint envC8 "addr" 1 [(0, 1), (1, 2)] (some 6))
    ∧ ((exodus_sendmint envC8 "addr" 1 [(0, 1), (1, 2)] none).createdMints = []
      ∧ (exodus_sendmint envC8 "addr" 1 [(0, 1), (1, 2)] none).builderCalled = false) :=
  ⟨(mint_minconf_default_and_no_mutation_before_checks envC8 "addr" 1 [(0, 1), (1, 2)] none).1,
   (mint_minconf_default_and_no_mutation_before_checks envC8 "addr" 1 [(0, 1), (1, 2)] none).2 rfl⟩

end Exodus

namespace Exodus

/-- Helper: a precondition failure of exodus_senddexaccept is always a
named check error, never an exception. -/
theorem dexacceptFirstCheckError_is_check (c : Checks) (toAddress : String)
    (propertyId : Nat) (override : Bool) (e : RpcError)
    (h : dexacceptFirstCheckError c toAddress propertyId override = some e) :
    ∃ s, e = .check s := by
  revert h
  unfold dexacceptFirstCheckError
  repeat' split
  all_goals intro h
  all_goals simp_all
  all_goals exact ⟨_, h.symm⟩

/-- Claim C1 counterexample: every check passes, the matched offer declares
minimum accept fee 5000, and the build call raises an exception; the
dispatcher exits on the exception path with the fee policy still holding
the override derived from the offer, not the prior policy, refuting the
claim that the prior policy is restored on every exit path including
exceptions raised during the build. -/
theorem dexaccept_fee_not_restored_on_build_exception :
    (exodus_senddexaccept envC1 "buyer" "seller" 1 10 false).outcome
        = .error (.exception "bad alloc during build")
    ∧ (exodus_senddexaccept envC1 "buyer" "seller" 1 10 false).payTxFeeFinal
        = some { feePaid := 5000, bytes := 225 }
    ∧ (exodus_senddexaccept envC1 "buyer" "seller" 1 10 false).payTxFeeFinal
        ≠ some envC1.payTxFee := by
  refine ⟨rfl, rfl, ?_⟩
  decide

/-- Claim C1 amended: for exchange-accept the global fee policy is replaced
by the rate derived from the matched offer minimum accept fee for the one
build call, and the prior policy is restored on every normal-return exit
path (success or any nonzero result code); but when an exception escapes
the build call the prior policy is not restored and the override is left
in place. -/
theorem dexaccept_fee_override_scoped_amended
    (env : Env) (fromAddress toAddress : String) (propertyId : Nat)
    (amount : Int) (override : Bool) (off : CMPOffer)
    (hoff : env.getOffer toAddress propertyId = some off) :
    ((exodus_senddexaccept env fromAddress toAddress propertyId amount override).builderCalled = true →
      (exodus_senddexaccept env fromAddress toAddress propertyId amount override).feeAtBuild
        = some { feePaid := off.minFee, bytes := 225 })
    ∧ ((∀ msg, (exodus_senddexaccept env fromAddress toAddress propertyId amount override).outcome
          ≠ .error (.exception msg)) →
        (exodus_senddexaccept env fromAddress toAddress propertyId amount override).payTxFeeFinal
          = some env.payTxFee)
    ∧ (∀ msg, (exodus_senddexaccept env fromAddress toAddress propertyId amount override).outcome
          = .error (.exception msg) →
        (exodus_senddexaccept env fromAddress toAddress propertyId amount override).payTxFeeFinal
          = some { feePaid := off.minFee, bytes := 225 }) := by
  cases hchk : dexacceptFirstCheckError env.checks toAddress propertyId override with
  | some e =>
    obtain ⟨s, rfl⟩ :=
      dexacceptFirstCheckError_is_check env.checks toAddress propertyId override e hchk
    simp [exodus_senddexaccept, hchk]
  | none =>
    cases hb : env.walletTxBuilder
        { fromAddress := fromAddress, toAddress := toAddress, redeemAddress := "",
          referenceAmount := 0, payload := .dexAccept propertyId amount,
          autoCommit := env.autoCommit, inputMode := .normal } with
    | exn msg =>
      refine ⟨?_, ?_, ?_⟩
      · intro _
        simp [exodus_senddexaccept, hchk, hoff, hb]
      · intro hno
        have hout : (exodus_senddexaccept env fromAddress toAddress propertyId amount override).outcome
            = .error (.exception msg) := by
          simp [exodus_senddexaccept, hchk, hoff, hb]
        exact absurd hout (hno msg)
      · intro msg2 _
        simp [exodus_senddexaccept, hchk, hoff, hb]
    | ret code txid rawHex =>
      simp only [exodus_senddexaccept, hchk, hoff, hb]
      by_cases hc : code = 0
      · by_cases ha : env.autoCommit
        all_goals simp [hc, ha]
      · simp [hc]

/-- Claim C1 amended witness: the theorem applied in the all-good
committing environment against the offer with minimum accept fee 5000. -/
theorem dexaccept_fee_override_scoped_amended_witness :
    (((exodus_senddexaccept envC1w "buyer" "seller" 1 10 false).builderCalled = true →
      (exodus_senddexaccept envC1w "buyer" "seller" 1 10 false).feeAtBuild
        = some { feePaid := (5000 : Int), bytes := 225 })
    ∧ ((∀ msg, (exodus_senddexaccept envC1w "buyer" "seller" 1 10 false).outcome
          ≠ .error (.exception msg)) →
        (exodus_senddexaccept envC1w "buyer" "seller" 1 10 false).payTxFeeFinal
          = some envC1w.payTxFee)
    ∧ (∀ msg, (exodus_senddexaccept envC1w "buyer" "seller" 1 10 false).outcome
          = .error (.exception msg) →
        (exodus_senddexaccept envC1w "buyer" "seller" 1 10 false).payTxFeeFinal
          = some { feePaid := (5000 : Int), bytes := 225 })) :=
  dexaccept_fee_override_scoped_amended envC1w "buyer" "seller" 1 10 false
    { minFee := 5000 } rfl

end Exodus
